import Mathlib

/-!
Shallow embedding of the awaaz real-time transcription service core:
the per-session buffering state machine
(src/src/buffering_strategy/buffering_strategies.py), the ASR model pool
(src/src/asr/model_pool.py), and the frame-receive loop (src/src/server.py).

Byte buffers (Python bytearray) are lists of naturals; Python float
arithmetic is modelled over the rationals; a call into an external VAD or
ASR capability is a parameter carrying the outcome of that call, with
Except.error standing for a raised exception.  The wall-clock timing
fields (perf_counter, processing_time) and the log / metric side calls
are elided: they do not affect any session state.
-/

namespace Awaaz

/-- Per-connection mutable state (the Client object of src/client.py, which
is not itself under src/; its fields and the two trivial mutators
append_audio_data and increment_file_counter are modelled from the spec
sections 3 and 4.3, exactly as the buffering code under src/ uses them:
buffer and scratch_buffer are bytearrays, sampling_rate and samples_width
are the immutable audio format integers, file_counter backs
increment_file_counter). -/
structure Client where
  buffer : List ℕ
  scratch_buffer : List ℕ
  sampling_rate : ℕ
  samples_width : ℕ
  file_counter : ℕ
  config : List (String × String)
deriving Repr, DecidableEq

/-- The mutable fields of the SilenceAtEndOfChunk buffering strategy
(buffering_strategies.py, constructor lines 28-60): the two chunk
parameters, the overload policy flag, and processing_flag. -/
structure SilenceAtEndOfChunk where
  chunk_length_seconds : ℚ
  chunk_offset_seconds : ℚ
  error_if_not_realtime : Bool
  processing_flag : Bool
deriving Repr, DecidableEq

/-- One Session: a Client together with the one buffering-strategy instance
bound to it. -/
structure SessionState where
  client : Client
  strategy : SilenceAtEndOfChunk
deriving Repr, DecidableEq

/-- Outcome of one synchronous process_audio call: exited models the
exit(...) call under the fail-fast policy; ok carries the new session
state and whether asyncio.create_task launched a finalize pass. -/
inductive IngestResult where
  | exited
  | ok (s : SessionState) (launched : Bool)
deriving Repr, DecidableEq

/-- The chunk_length_in_bytes local of process_audio (lines 75-79):
chunk_length_seconds * sampling_rate * samples_width. -/
def chunk_length_in_bytes (s : SessionState) : ℚ :=
  s.strategy.chunk_length_seconds * (s.client.sampling_rate : ℚ)
    * (s.client.samples_width : ℚ)

/-- SilenceAtEndOfChunk.process_audio (buffering_strategies.py lines
62-101): if len(buffer) exceeds the chunk-length threshold and a pass is
already in flight, either exit (fail-fast policy) or clear the live buffer
(drop policy); otherwise move the live buffer onto scratch_buffer, set
processing_flag and launch the async pass. -/
def process_audio (s : SessionState) : IngestResult :=
  if chunk_length_in_bytes s < (s.client.buffer.length : ℚ) then
    if s.strategy.processing_flag then
      if s.strategy.error_if_not_realtime then
        IngestResult.exited
      else
        IngestResult.ok { s with client := { s.client with buffer := [] } } false
    else
      IngestResult.ok
        { client := { s.client with
            scratch_buffer := s.client.scratch_buffer ++ s.client.buffer,
            buffer := [] },
          strategy := { s.strategy with processing_flag := true } } true
  else
    IngestResult.ok s false

/-- One VAD segment as produced by detect_activity (pyannote_vad.py lines
65-68): a dict with start, end and confidence keys; endTime is the value
of the end key (end is a reserved word here). -/
structure Segment where
  start : ℚ
  endTime : ℚ
  confidence : ℚ
deriving Repr, DecidableEq

/-- An ASR transcription result; the only field the core inspects is
text. -/
structure Transcription where
  text : String
deriving Repr, DecidableEq

/-- The outbound transcript frame sent over the websocket (lines 144-155):
the transcription text together with the computed audio_duration; the
string-formatted wall-clock processing_time is elided. -/
structure OutFrame where
  text : String
  audio_duration : ℚ
deriving Repr, DecidableEq

/-- Outcome of one process_audio_async pass: the session state after the
pass, the number of free handles in the model pool, the outbound frame if
one was sent, whether the transcribe call was invoked, and whether an
exception propagated out of the pass (in which case the statements after
the raise point, including the final processing_flag reset, never ran). -/
structure AsyncResult where
  state : SessionState
  pool_available : ℕ
  sent : Option OutFrame
  transcribed : Bool
  raised : Bool
deriving Repr, DecidableEq

/-- The audio_duration local (lines 148-150): len(scratch_buffer) /
(sampling_rate * samples_width). -/
def audio_duration (s : SessionState) : ℚ :=
  (s.client.scratch_buffer.length : ℚ)
    / ((s.client.sampling_rate : ℚ) * (s.client.samples_width : ℚ))

/-- The last_segment_should_end_before local, the safety cutoff (lines
130-133). -/
def last_segment_should_end_before (s : SessionState) : ℚ :=
  audio_duration s - s.strategy.chunk_offset_seconds

/-- SilenceAtEndOfChunk.process_audio_async (lines 103-190).  vad is the
outcome of vad_pipeline.detect_activity, tr the outcome of
model_instance.transcribe, pool the count of free handles in the
asr_pipeline pool; acquire takes one, and the finally clause releases it
back even when transcribe raises.  On an empty segment list the code
clears both scratch_buffer and buffer (line 126) and resets
processing_flag.  Otherwise, when the last segment ends strictly before
the cutoff, it transcribes, then (if text is non-empty) sends the frame,
then clears scratch_buffer and increments the file counter; when it does
not, the pass only resets processing_flag. -/
def process_audio_async (s : SessionState) (vad : Except String (List Segment))
    (tr : Except String Transcription) (pool : ℕ) : AsyncResult :=
  match vad with
  | Except.error _ => ⟨s, pool, none, false, true⟩
  | Except.ok [] =>
      ⟨{ s with
          client := { s.client with scratch_buffer := [], buffer := [] },
          strategy := { s.strategy with processing_flag := false } },
        pool, none, false, false⟩
  | Except.ok (v :: vs) =>
      if ((v :: vs).getLast (List.cons_ne_nil v vs)).endTime
          < last_segment_should_end_before s then
        match tr with
        | Except.error _ => ⟨s, pool - 1 + 1, none, true, true⟩
        | Except.ok t =>
            let sent : Option OutFrame :=
              if t.text ≠ "" then some ⟨t.text, audio_duration s⟩ else none
            ⟨{ s with
                client := { s.client with
                  scratch_buffer := [],
                  file_counter := s.client.file_counter + 1 },
                strategy := { s.strategy with processing_flag := false } },
              pool - 1 + 1, sent, true, false⟩
      else
        ⟨{ s with strategy := { s.strategy with processing_flag := false } },
          pool, none, false, false⟩

/-- Modelled from the spec: Client.append_audio_data lives in
src/client.py, which is not under src/; section 4.3 says it always
succeeds and appends to the live buffer. -/
def append_audio_data (c : Client) (bs : List ℕ) : Client :=
  { c with buffer := c.buffer ++ bs }

/-- One ingestion step as driven by the receive loop: a binary frame is
appended to the live buffer and the synchronous threshold check runs. -/
def ingest_step (s : SessionState) (bs : List ℕ) : IngestResult :=
  process_audio { s with client := append_audio_data s.client bs }

/-- A sequence of ingestion steps; the resulting launched flag records
whether any step launched a finalize pass. -/
def ingest_trace : List (List ℕ) → SessionState → IngestResult
  | [], s => IngestResult.ok s false
  | bs :: rest, s =>
    match ingest_step s bs with
    | IngestResult.exited => IngestResult.exited
    | IngestResult.ok s1 l =>
      match ingest_trace rest s1 with
      | IngestResult.exited => IngestResult.exited
      | IngestResult.ok s2 l2 => IngestResult.ok s2 (l || l2)

/-! ### The ASR model pool (src/src/asr/model_pool.py) -/

/-- Embeds get_available_gpu_memory_bytes (model_pool.py lines 10-20): the
pynvml introspection is external, so the parameter carries its outcome,
with none meaning the introspection raised; on an exception the function
logs the error and returns 0. -/
def get_available_gpu_memory_bytes (introspect : Option ℚ) : ℚ :=
  match introspect with
  | some m => m
  | none => 0

/-- compute_model_pool_size (model_pool.py lines 23-34), with the
externally-obtained quantities as parameters: introspect is the outcome of
get_available_gpu_memory_bytes, model_memory_bytes the value of
FasterWhisperASR.get_model_memory_bytes.  The code multiplies the
available memory by 0.8, divides by the footprint, floors, and clamps to a
minimum of 1; a zero footprint makes the division raise ZeroDivisionError
(there is no guard), modelled as Except.error. -/
def compute_model_pool_size (introspect : Option ℚ) (model_memory_bytes : ℚ) :
    Except String ℤ :=
  let available_memory := get_available_gpu_memory_bytes introspect
  let available_memory := available_memory * (4 / 5 : ℚ)
  if model_memory_bytes = 0 then
    Except.error "ZeroDivisionError"
  else
    Except.ok (max 1 ⌊available_memory / model_memory_bytes⌋)

/-- State of the ASRModelPool (model_pool.py lines 37-48): free is the
contents of the asyncio.Queue of handles, in order; held is ghost state
recording which caller currently holds which checked-out handle. -/
structure PoolState where
  free : List ℕ
  held : List (ℕ × ℕ)
deriving Repr, DecidableEq

/-- A pool operation label: which caller acquires or releases which
handle. -/
inductive PoolOp where
  | acquireOp (caller handle : ℕ)
  | releaseOp (caller handle : ℕ)
deriving Repr, DecidableEq

/-- One step of the pool protocol.  acquire embeds ASRModelPool.acquire
(await self.pool.get()): it is enabled only when the queue is non-empty —
with an empty queue the awaiting caller stays suspended and no step
exists.  release embeds ASRModelPool.release (self.pool.put_nowait) under
the scoped-acquisition usage contract of the spec (the handle must have
come from this pool and not already be back in it): only a caller holding
the handle may release it. -/
inductive PoolStep : PoolState → PoolOp → PoolState → Prop where
  | acquire (p : PoolState) (caller handle : ℕ) (rest : List ℕ)
      (hfree : p.free = handle :: rest) :
      PoolStep p (PoolOp.acquireOp caller handle)
        ⟨rest, (caller, handle) :: p.held⟩
  | release (p : PoolState) (caller handle : ℕ) (l1 l2 : List (ℕ × ℕ))
      (hheld : p.held = l1 ++ (caller, handle) :: l2) :
      PoolStep p (PoolOp.releaseOp caller handle)
        ⟨handle :: p.free, l1 ++ l2⟩

/-- States reachable from an initial pool state by any interleaving of
acquire and release steps. -/
inductive PoolReachable (p0 : PoolState) : PoolState → Prop where
  | refl : PoolReachable p0 p0
  | step {p q : PoolState} {op : PoolOp} :
      PoolReachable p0 p → PoolStep p op q → PoolReachable p0 q

/-- The pool invariant: the free handles and the held handles together are
exactly capacity many, and no handle occurs twice (in the queue twice, in
two holders, or both free and held). -/
def PoolInv (capacity : ℕ) (p : PoolState) : Prop :=
  p.free.length + p.held.length = capacity
    ∧ (p.free ++ p.held.map Prod.snd).Nodup

/-! ### The frame-receive loop (src/src/server.py) -/

/-- An object-shaped (dict) result of json.loads: msg_type is config.get
of the type key, data is the value at the data key when present. -/
structure ControlMsg where
  msg_type : Option String
  data : Option (List (String × String))
deriving Repr, DecidableEq

/-- The outcome of json.loads on a text frame: malformed when the text is
unparseable and json.loads raises JSONDecodeError; nonObject when it
parses but to something other than a dict (a list, string, number or
null), which has no get method; object when it parses to a dict. -/
inductive JsonParse where
  | malformed
  | nonObject
  | object (m : ControlMsg)
deriving Repr, DecidableEq

/-- One inbound websocket frame as the receive loop classifies it: a
binary payload, a text payload together with the outcome of json.loads,
or a payload of any other type. -/
inductive InboundFrame where
  | binary (payload : List ℕ)
  | text (parsed : JsonParse)
  | other
deriving Repr, DecidableEq

/-- Outcome of one iteration of the receive loop: raised means an
exception propagated out of handle_audio, ending the loop (only
websockets.ConnectionClosed is caught upstream, so the connection is torn
down); next carries the client state for the next iteration and whether
client.process_audio was invoked. -/
inductive LoopResult where
  | raised
  | next (c : Client) (processed : Bool)
deriving Repr, DecidableEq

/-- Modelled from the spec: Client.update_config lives in src/client.py,
which is not under src/; sections 4.3 and 9 say it merges the supplied
mapping into the session config, overwriting existing keys, without
validation. -/
def update_config (c : Client) (data : List (String × String)) : Client :=
  { c with
    config := data.foldl
      (fun m kv => m.filter (fun p => p.1 ≠ kv.1) ++ [kv]) c.config }

/-- One iteration of Server.handle_audio (server.py lines 56-73): a binary
frame is appended and process_audio runs; a text frame goes through
json.loads — an unparseable one raises JSONDecodeError (uncaught), and a
parse result that is not an object raises AttributeError at the
config.get call on line 63 (also uncaught); a config message updates the
config and the loop continues without the process_audio call (the
continue statement), raising KeyError if the data key is absent; an
object of any other shape falls through to process_audio; a frame of any
other type is logged and falls through to process_audio. -/
def handle_audio_step (c : Client) (f : InboundFrame) : LoopResult :=
  match f with
  | InboundFrame.binary bs => LoopResult.next (append_audio_data c bs) true
  | InboundFrame.text JsonParse.malformed => LoopResult.raised
  | InboundFrame.text JsonParse.nonObject => LoopResult.raised
  | InboundFrame.text (JsonParse.object m) =>
      if m.msg_type = some "config" then
        match m.data with
        | some d => LoopResult.next (update_config c d) false
        | none => LoopResult.raised
      else
        LoopResult.next c true
  | InboundFrame.other => LoopResult.next c true

/-! ### Concrete fixtures used by the witnesses -/

/-- A client with three buffered bytes, one scratch byte, sampling_rate 1
and samples_width 1. -/
def exDropClient : Client := ⟨[0, 0, 0], [1], 1, 1, 0, []⟩

/-- A session mid-finalize (processing_flag set, drop policy) whose
2-byte chunk threshold the 3-byte live buffer exceeds. -/
def exDropState : SessionState := ⟨exDropClient, ⟨2, 1, false, true⟩⟩

/-- An idle session (processing_flag clear) with the same buffers and
thresholds. -/
def exIdleState : SessionState := ⟨exDropClient, ⟨2, 1, false, false⟩⟩

/-- An idle session whose single buffered byte does not exceed the 2-byte
chunk threshold. -/
def exIdleSmallState : SessionState := ⟨⟨[0], [1], 1, 1, 0, []⟩, ⟨2, 1, false, false⟩⟩

/-- A session holding a 10-second scratch window (10 bytes at rate 1 and
width 1) with chunk_offset_seconds 1, so the cutoff is 9. -/
def exCutState : SessionState :=
  ⟨⟨[], List.replicate 10 0, 1, 1, 0, []⟩, ⟨2, 1, false, true⟩⟩

/-- A session with a non-empty live buffer, used to observe the empty-VAD
branch clearing it. -/
def exSilenceState : SessionState := ⟨⟨[1, 2], [3], 1, 1, 0, []⟩, ⟨2, 1, false, true⟩⟩

/-- A client fixture for the receive-loop claims. -/
def exServerClient : Client := ⟨[], [], 16000, 2, 0, []⟩

/-- A session that is overloaded and also finalizable: processing_flag
set, drop policy, 3 buffered bytes over a 2-byte threshold, and a
10-second scratch window whose cutoff is 9. -/
def exStuckState : SessionState :=
  ⟨⟨[0, 0, 0], List.replicate 10 0, 1, 1, 0, []⟩, ⟨2, 1, false, true⟩⟩

/-! ### Claims about the buffering state machine -/

/-- C1: for every Session, a chunk-length threshold trigger while
processing_flag is already set starts no second finalize pass (nothing is
launched); under the default drop policy the live buffer contents are
discarded and everything else — in particular scratch_buffer and the
strategy state of the in-flight pass — is left unchanged. -/
theorem claim_C1 (s : SessionState)
    (hflag : s.strategy.processing_flag = true)
    (hpolicy : s.strategy.error_if_not_realtime = false)
    (htrigger : chunk_length_in_bytes s < (s.client.buffer.length : ℚ)) :
    process_audio s
      = IngestResult.ok { s with client := { s.client with buffer := [] } } false := by
  simp [process_audio, htrigger, hflag, hpolicy]

/-- Witness for C1 at a concrete overloaded session. -/
theorem claim_C1_witness :
    process_audio exDropState
      = IngestResult.ok
          { exDropState with client := { exDropState.client with buffer := [] } }
          false :=
  claim_C1 exDropState rfl rfl
    (by norm_num [chunk_length_in_bytes, exDropState, exDropClient])

/-- C4: for every idle Session (processing_flag clear), when the live
buffer length exceeds the chunk-length threshold, process_audio appends
all of the live buffer onto scratch_buffer, clears the live buffer, sets
processing_flag and launches the finalize pass; when it does not exceed
the threshold, the state is unchanged and nothing is launched. -/
theorem claim_C4 (s : SessionState)
    (hflag : s.strategy.processing_flag = false) :
    (chunk_length_in_bytes s < (s.client.buffer.length : ℚ) →
        process_audio s
          = IngestResult.ok
              { client := { s.client with
                  scratch_buffer := s.client.scratch_buffer ++ s.client.buffer,
                  buffer := [] },
                strategy := { s.strategy with processing_flag := true } } true)
      ∧ (¬ chunk_length_in_bytes s < (s.client.buffer.length : ℚ) →
          process_audio s = IngestResult.ok s false) := by
  constructor <;> intro h <;> simp [process_audio, h, hflag]

/-- Witness for C4: a triggering and a non-triggering idle session. -/
theorem claim_C4_witness :
    process_audio exIdleState
      = IngestResult.ok
          { client := { exIdleState.client with
              scratch_buffer := exIdleState.client.scratch_buffer
                ++ exIdleState.client.buffer,
              buffer := [] },
            strategy := { exIdleState.strategy with processing_flag := true } } true
    ∧ process_audio exIdleSmallState = IngestResult.ok exIdleSmallState false :=
  ⟨(claim_C4 exIdleState rfl).1
      (by norm_num [chunk_length_in_bytes, exIdleState, exDropClient]),
   (claim_C4 exIdleSmallState rfl).2
      (by norm_num [chunk_length_in_bytes, exIdleSmallState])⟩

/-- C2: in a finalize pass with a non-empty VAD segment list, if the last
segment does not end strictly before the cutoff, scratch_buffer is left
intact and no transcription (and no outbound frame) happens; if it ends
strictly before the cutoff, the pass transcribes. -/
theorem claim_C2 (s : SessionState) (v : Segment) (vs : List Segment)
    (tr : Except String Transcription) (pool : ℕ) :
    (¬ ((v :: vs).getLast (List.cons_ne_nil v vs)).endTime
          < last_segment_should_end_before s →
        (process_audio_async s (Except.ok (v :: vs)) tr pool).state.client.scratch_buffer
            = s.client.scratch_buffer
          ∧ (process_audio_async s (Except.ok (v :: vs)) tr pool).transcribed = false
          ∧ (process_audio_async s (Except.ok (v :: vs)) tr pool).sent = none)
      ∧ (((v :: vs).getLast (List.cons_ne_nil v vs)).endTime
            < last_segment_should_end_before s →
          (process_audio_async s (Except.ok (v :: vs)) tr pool).transcribed = true) := by
  constructor <;> intro h
  · simp [process_audio_async, h]
  · cases tr <;> simp [process_audio_async, h]

/-- Witness for C2: against the 10-second window with cutoff 9, a last
segment ending at 9.5 is not finalized and one ending at 8 is. -/
theorem claim_C2_witness :
    ((process_audio_async exCutState
          (Except.ok [⟨0, 19 / 2, 1⟩]) (Except.ok ⟨"hi"⟩) 1).state.client.scratch_buffer
        = exCutState.client.scratch_buffer
      ∧ (process_audio_async exCutState
          (Except.ok [⟨0, 19 / 2, 1⟩]) (Except.ok ⟨"hi"⟩) 1).transcribed = false
      ∧ (process_audio_async exCutState
          (Except.ok [⟨0, 19 / 2, 1⟩]) (Except.ok ⟨"hi"⟩) 1).sent = none)
    ∧ (process_audio_async exCutState
        (Except.ok [⟨0, 8, 1⟩]) (Except.ok ⟨"hi"⟩) 1).transcribed = true :=
  ⟨(claim_C2 exCutState ⟨0, 19 / 2, 1⟩ [] (Except.ok ⟨"hi"⟩) 1).1
      (by norm_num [List.getLast, last_segment_should_end_before, audio_duration,
        exCutState]),
   (claim_C2 exCutState ⟨0, 8, 1⟩ [] (Except.ok ⟨"hi"⟩) 1).2
      (by norm_num [List.getLast, last_segment_should_end_before, audio_duration,
        exCutState])⟩

/-- C9 counterexample: the claim says the empty-VAD branch leaves
live_buffer unchanged, but process_audio_async (line 126 of
buffering_strategies.py) also clears the live buffer: with two bytes
buffered, the buffer after the pass differs from the buffer before. -/
theorem claim_C9_cex :
    (process_audio_async exSilenceState (Except.ok [])
        (Except.ok ⟨"hi"⟩) 1).state.client.buffer
      ≠ exSilenceState.client.buffer := by
  simp [process_audio_async, exSilenceState]

/-- C9 (amended): when VAD returns zero segments the pass clears
scratch_buffer, emits no transcript, resets processing_flag, leaves the
pool untouched and raises nothing — and it ALSO clears the live buffer;
everything else is unchanged. -/
theorem claim_C9 (s : SessionState) (tr : Except String Transcription) (pool : ℕ) :
    process_audio_async s (Except.ok []) tr pool
      = ⟨{ s with
            client := { s.client with scratch_buffer := [], buffer := [] },
            strategy := { s.strategy with processing_flag := false } },
          pool, none, false, false⟩ := rfl

/-- C5: when the transcription step is reached (non-empty segments ending
before the cutoff) and the ASR transcribe call raises, the finally clause
still releases the acquired handle: the pool count after the pass equals
the count before, and the exception propagates. -/
theorem claim_C5 (s : SessionState) (v : Segment) (vs : List Segment)
    (e : String) (pool : ℕ) (hpool : 0 < pool)
    (hcut : ((v :: vs).getLast (List.cons_ne_nil v vs)).endTime
        < last_segment_should_end_before s) :
    (process_audio_async s (Except.ok (v :: vs)) (Except.error e) pool).pool_available
        = pool
      ∧ (process_audio_async s (Except.ok (v :: vs)) (Except.error e) pool).raised
        = true := by
  refine ⟨?_, ?_⟩ <;> simp [process_audio_async, hcut]
  omega

/-- Witness for C5 at the concrete finalizable session with one free
handle. -/
theorem claim_C5_witness :
    (process_audio_async exCutState (Except.ok [⟨0, 8, 1⟩])
        (Except.error "boom") 1).pool_available = 1
    ∧ (process_audio_async exCutState (Except.ok [⟨0, 8, 1⟩])
        (Except.error "boom") 1).raised = true :=
  claim_C5 exCutState ⟨0, 8, 1⟩ [] "boom" 1 (by norm_num)
    (by norm_num [List.getLast, last_segment_should_end_before, audio_duration,
      exCutState])

/-- Helper: with processing_flag set and the drop policy active, one
ingestion step never launches a pass and leaves the whole strategy state
(in particular processing_flag) unchanged. -/
theorem ingest_step_drop (s : SessionState) (bs : List ℕ)
    (hflag : s.strategy.processing_flag = true)
    (hpolicy : s.strategy.error_if_not_realtime = false) :
    ∃ s1, ingest_step s bs = IngestResult.ok s1 false
      ∧ s1.strategy = s.strategy := by
  unfold ingest_step process_audio
  by_cases hc : chunk_length_in_bytes { s with client := append_audio_data s.client bs }
      < (((append_audio_data s.client bs).buffer.length : ℕ) : ℚ)
  · exact ⟨⟨{ append_audio_data s.client bs with buffer := [] }, s.strategy⟩,
      by simp [hc, hflag, hpolicy], rfl⟩
  · exact ⟨⟨append_audio_data s.client bs, s.strategy⟩, by simp [hc], rfl⟩

/-- Helper: with processing_flag stuck at true under the drop policy, an
arbitrary sequence of ingestion steps never launches a finalize pass and
never changes the strategy state. -/
theorem ingest_trace_drop (steps : List (List ℕ)) (s : SessionState)
    (hflag : s.strategy.processing_flag = true)
    (hpolicy : s.strategy.error_if_not_realtime = false) :
    ∃ s2, ingest_trace steps s = IngestResult.ok s2 false
      ∧ s2.strategy = s.strategy := by
  induction steps generalizing s with
  | nil => exact ⟨s, rfl, rfl⟩
  | cons bs rest ih =>
      obtain ⟨s1, hstep, hstrat⟩ := ingest_step_drop s bs hflag hpolicy
      obtain ⟨s2, htrace, hstrat2⟩ :=
        ih s1 (hstrat ▸ hflag) (hstrat ▸ hpolicy)
      refine ⟨s2, ?_, hstrat ▸ hstrat2⟩
      simp [ingest_trace, hstep, htrace]

/-- C10 (implicit): processing_flag is reset only on the normal return
paths of the finalize pass.  If the VAD call raises, the exception
propagates with the flag still true; likewise if the ASR transcribe call
raises on the transcription path.  From then on, any threshold trigger
under the drop policy merely clears the live buffer without starting a
pass, and no sequence of further ingestion steps ever launches one (so
the Session never produces another transcript). -/
theorem claim_C10 (s : SessionState) (tr : Except String Transcription)
    (e e2 : String) (v : Segment) (vs : List Segment) (pool : ℕ)
    (steps : List (List ℕ))
    (hflag : s.strategy.processing_flag = true)
    (hpolicy : s.strategy.error_if_not_realtime = false) :
    ((process_audio_async s (Except.error e) tr pool).raised = true
      ∧ (process_audio_async s
          (Except.error e) tr pool).state.strategy.processing_flag = true)
    ∧ (((v :: vs).getLast (List.cons_ne_nil v vs)).endTime
          < last_segment_should_end_before s →
        (process_audio_async s
            (Except.ok (v :: vs)) (Except.error e2) pool).raised = true
        ∧ (process_audio_async s (Except.ok (v :: vs))
            (Except.error e2) pool).state.strategy.processing_flag = true)
    ∧ (chunk_length_in_bytes s < (s.client.buffer.length : ℚ) →
        process_audio s
          = IngestResult.ok { s with client := { s.client with buffer := [] } } false)
    ∧ (∃ s2, ingest_trace steps
          (process_audio_async s (Except.error e) tr pool).state
          = IngestResult.ok s2 false
        ∧ s2.strategy.processing_flag = true) := by
  refine ⟨⟨rfl, hflag⟩, ?_, ?_, ?_⟩
  · intro h
    exact ⟨by simp [process_audio_async, h], by simp [process_audio_async, h, hflag]⟩
  · intro h
    simp [process_audio, h, hflag, hpolicy]
  · obtain ⟨s2, htrace, hstrat⟩ := ingest_trace_drop steps s hflag hpolicy
    exact ⟨s2, htrace, by rw [hstrat]; exact hflag⟩

/-- Witness for C10 at a concrete overloaded and finalizable session,
with a one-chunk continuation trace: every hypothesis, including the
cutoff and threshold conditions, holds and is discharged. -/
theorem claim_C10_witness :
    (process_audio_async exStuckState (Except.error "vadboom")
        (Except.ok ⟨"hi"⟩) 1).raised = true
    ∧ (process_audio_async exStuckState (Except.error "vadboom")
        (Except.ok ⟨"hi"⟩) 1).state.strategy.processing_flag = true
    ∧ (process_audio_async exStuckState (Except.ok [⟨0, 8, 1⟩])
        (Except.error "asrboom") 1).raised = true
    ∧ (process_audio_async exStuckState (Except.ok [⟨0, 8, 1⟩])
        (Except.error "asrboom") 1).state.strategy.processing_flag = true
    ∧ process_audio exStuckState
        = IngestResult.ok
            { exStuckState with
              client := { exStuckState.client with buffer := [] } } false
    ∧ (∃ s2, ingest_trace [[5]]
          (process_audio_async exStuckState (Except.error "vadboom")
            (Except.ok ⟨"hi"⟩) 1).state
          = IngestResult.ok s2 false
        ∧ s2.strategy.processing_flag = true) :=
  ⟨(claim_C10 exStuckState (Except.ok ⟨"hi"⟩) "vadboom" "asrboom" ⟨0, 8, 1⟩ []
      1 [[5]] rfl rfl).1.1,
   (claim_C10 exStuckState (Except.ok ⟨"hi"⟩) "vadboom" "asrboom" ⟨0, 8, 1⟩ []
      1 [[5]] rfl rfl).1.2,
   ((claim_C10 exStuckState (Except.ok ⟨"hi"⟩) "vadboom" "asrboom" ⟨0, 8, 1⟩ []
      1 [[5]] rfl rfl).2.1
      (by norm_num [List.getLast, last_segment_should_end_before, audio_duration,
        exStuckState])).1,
   ((claim_C10 exStuckState (Except.ok ⟨"hi"⟩) "vadboom" "asrboom" ⟨0, 8, 1⟩ []
      1 [[5]] rfl rfl).2.1
      (by norm_num [List.getLast, last_segment_should_end_before, audio_duration,
        exStuckState])).2,
   (claim_C10 exStuckState (Except.ok ⟨"hi"⟩) "vadboom" "asrboom" ⟨0, 8, 1⟩ []
      1 [[5]] rfl rfl).2.2.1
      (by norm_num [chunk_length_in_bytes, exStuckState]),
   (claim_C10 exStuckState (Except.ok ⟨"hi"⟩) "vadboom" "asrboom" ⟨0, 8, 1⟩ []
      1 [[5]] rfl rfl).2.2.2⟩

/-! ### Claims about the model pool -/

/-- Helper: the pool invariant is preserved by every acquire or release
step. -/
theorem poolInv_step {capacity : ℕ} {p q : PoolState} {op : PoolOp}
    (hinv : PoolInv capacity p) (hstep : PoolStep p op q) :
    PoolInv capacity q := by
  obtain ⟨hlen, hnodup⟩ := hinv
  cases hstep with
  | acquire caller handle rest hfree =>
      have hfl : p.free.length = rest.length + 1 := by rw [hfree]; rfl
      constructor
      · simp only [List.length_cons, List.map_cons]
        omega
      · have h1 : p.free ++ p.held.map Prod.snd
            = handle :: (rest ++ p.held.map Prod.snd) := by rw [hfree]; rfl
        rw [h1] at hnodup
        simpa using List.Perm.nodup List.perm_middle.symm hnodup
  | release caller handle l1 l2 hheld =>
      have hperm : (p.free ++ p.held.map Prod.snd).Perm
          (handle :: (p.free ++ (l1 ++ l2).map Prod.snd)) := by
        rw [hheld]
        simp only [List.map_append, List.map_cons, ← List.append_assoc]
        exact @List.perm_middle _ handle (p.free ++ l1.map Prod.snd)
          (l2.map Prod.snd)
      constructor
      · rw [hheld] at hlen
        simp only [List.length_append, List.length_cons] at hlen ⊢
        omega
      · simpa using hperm.nodup hnodup

/-- Helper: the pool invariant holds in every reachable state. -/
theorem poolInv_reachable {capacity : ℕ} {p0 p : PoolState}
    (h0 : PoolInv capacity p0) (hreach : PoolReachable p0 p) :
    PoolInv capacity p := by
  induction hreach with
  | refl => exact h0
  | step _ hstep ih => exact poolInv_step ih hstep

/-- C3: starting from a pool of capacity-many distinct handles, in every
reachable state the number of outstanding handles never exceeds the
capacity; with capacity-many outstanding the queue is empty, and with an
empty queue no acquire step exists (the next acquire stays suspended
until a release); no handle is held by two callers at once; and free plus
held handles always account for exactly the capacity. -/
theorem claim_C3 (capacity : ℕ) (init : List ℕ) (p : PoolState)
    (hlen : init.length = capacity) (hnodup : init.Nodup)
    (hreach : PoolReachable ⟨init, []⟩ p) :
    p.held.length ≤ capacity
    ∧ (p.held.length = capacity → p.free = [])
    ∧ (p.free = [] → ∀ caller handle q,
        ¬ PoolStep p (PoolOp.acquireOp caller handle) q)
    ∧ (p.held.map Prod.snd).Nodup
    ∧ p.free.length + p.held.length = capacity := by
  have hinv : PoolInv capacity p := by
    refine poolInv_reachable ⟨?_, ?_⟩ hreach
    · simpa using hlen
    · simpa using hnodup
  obtain ⟨hl, hn⟩ := hinv
  refine ⟨by omega, ?_, ?_, ?_, hl⟩
  · intro hfull
    have : p.free.length = 0 := by omega
    exact List.length_eq_zero.mp this
  · intro hempty caller handle q hstep
    cases hstep with
    | acquire _ _ rest hfree =>
        rw [hempty] at hfree
        exact List.cons_ne_nil handle rest hfree.symm
  · exact ((List.nodup_append.mp hn).2).1

/-- Witness for C3: a capacity-1 pool after its one handle has been
acquired by caller 7. -/
theorem claim_C3_witness :
    (PoolState.mk [] [(7, 0)]).held.length ≤ 1
    ∧ ((PoolState.mk [] [(7, 0)]).held.length = 1
        → (PoolState.mk [] [(7, 0)]).free = [])
    ∧ ((PoolState.mk [] [(7, 0)]).free = [] → ∀ caller handle q,
        ¬ PoolStep (PoolState.mk [] [(7, 0)]) (PoolOp.acquireOp caller handle) q)
    ∧ ((PoolState.mk [] [(7, 0)]).held.map Prod.snd).Nodup
    ∧ (PoolState.mk [] [(7, 0)]).free.length
        + (PoolState.mk [] [(7, 0)]).held.length = 1 :=
  claim_C3 1 [0] (PoolState.mk [] [(7, 0)]) rfl (by simp)
    (PoolReachable.step PoolReachable.refl
      (PoolStep.acquire (PoolState.mk [0] []) 7 0 [] rfl))

/-- C6: with a positive footprint the computed pool size is exactly
max 1 of the floor of 0.8 times the available memory over the footprint;
10000 over 2000 gives 4, 1000 over 10000 clamps to 1, and a failed
introspection (which makes get_available_gpu_memory_bytes return 0)
degrades to 1 instead of failing. -/
theorem claim_C6 (M F : ℚ) (hF : 0 < F) :
    compute_model_pool_size (some M) F = Except.ok (max 1 ⌊4 / 5 * M / F⌋)
    ∧ compute_model_pool_size (some 10000) 2000 = Except.ok 4
    ∧ compute_model_pool_size (some 1000) 10000 = Except.ok 1
    ∧ compute_model_pool_size none F = Except.ok 1 := by
  refine ⟨?_, ?_, ?_, ?_⟩
  · simp only [compute_model_pool_size, get_available_gpu_memory_bytes,
      if_neg hF.ne', mul_comm]
  · norm_num [compute_model_pool_size, get_available_gpu_memory_bytes]
  · norm_num [compute_model_pool_size, get_available_gpu_memory_bytes]
  · simp [compute_model_pool_size, get_available_gpu_memory_bytes, hF.ne']

/-- Witness for C6 at the spec's own example numbers. -/
theorem claim_C6_witness :
    compute_model_pool_size (some 10000) 2000
        = Except.ok (max 1 ⌊(4 / 5 * 10000 / 2000 : ℚ)⌋)
    ∧ compute_model_pool_size (some 10000) 2000 = Except.ok 4
    ∧ compute_model_pool_size (some 1000) 10000 = Except.ok 1
    ∧ compute_model_pool_size none 2000 = Except.ok 1 :=
  claim_C6 10000 2000 (by norm_num)

/-- C7 counterexample: the claim says every non-positive footprint makes
pool sizing fail, but a negative footprint of -5 with memory 10000 does
not fail: it silently returns the usable pool size 1 (the floor of a
negative quotient, clamped to the minimum of 1). -/
theorem claim_C7_cex :
    compute_model_pool_size (some 10000) (-5) = Except.ok 1 := by
  norm_num [compute_model_pool_size, get_available_gpu_memory_bytes]

/-- C7 (amended): only a zero footprint makes the computation fail (the
unguarded division raises ZeroDivisionError); a negative footprint does
not fail but silently yields the clamped pool size 1 for any nonnegative
available memory. -/
theorem claim_C7 (M F : ℚ) (hM : 0 ≤ M) (hF : F < 0) :
    compute_model_pool_size (some M) 0 = Except.error "ZeroDivisionError"
    ∧ compute_model_pool_size (some M) F = Except.ok 1 := by
  constructor
  · simp [compute_model_pool_size]
  · have h1 : (0 : ℚ) ≤ M * (4 / 5) := by positivity
    have h2 : M * (4 / 5) / F ≤ 0 := div_nonpos_iff.mpr (Or.inl ⟨h1, hF.le⟩)
    have h3 : ⌊M * (4 / 5) / F⌋ ≤ 0 := by
      simpa using Int.floor_le_floor h2
    simp only [compute_model_pool_size, get_available_gpu_memory_bytes,
      if_neg hF.ne]
    congr 1
    omega

/-- Witness for C7 at memory 10000 and footprint -5. -/
theorem claim_C7_witness :
    compute_model_pool_size (some 10000) 0 = Except.error "ZeroDivisionError"
    ∧ compute_model_pool_size (some 10000) (-5) = Except.ok 1 :=
  claim_C7 10000 (-5) (by norm_num) (by norm_num)

/-! ### Claims about the receive loop -/

/-- C8 counterexample: the claim says an unparseable JSON text frame is
logged and dropped with the connection staying open, but json.loads is
not guarded in handle_audio, so the receive-loop iteration raises and the
loop (and with it the connection) ends. -/
theorem claim_C8_cex :
    handle_audio_step exServerClient (InboundFrame.text JsonParse.malformed)
      = LoopResult.raised :=
  rfl

/-- C8 (amended): an unparseable JSON text frame raises out of the
receive loop, terminating it (the connection does not stay open), and so
does a text frame whose JSON parse result is not an object (a list,
string, number or null makes the config.get call on line 63 raise an
uncaught AttributeError); a text frame that parses to an object that is
not the recognized config message is dropped with the client state
unchanged and the loop continues; a frame of neither binary nor text type
is logged, dropped and the loop continues. -/
theorem claim_C8 (c : Client) (m : ControlMsg) :
    handle_audio_step c (InboundFrame.text JsonParse.malformed) = LoopResult.raised
    ∧ handle_audio_step c (InboundFrame.text JsonParse.nonObject) = LoopResult.raised
    ∧ (m.msg_type ≠ some "config" →
        handle_audio_step c (InboundFrame.text (JsonParse.object m))
          = LoopResult.next c true)
    ∧ handle_audio_step c InboundFrame.other = LoopResult.next c true := by
  refine ⟨rfl, rfl, ?_, rfl⟩
  intro h
  simp [handle_audio_step, h]

/-- Witness for C8 at a concrete client and a non-config object
message. -/
theorem claim_C8_witness :
    handle_audio_step exServerClient (InboundFrame.text JsonParse.malformed)
        = LoopResult.raised
    ∧ handle_audio_step exServerClient (InboundFrame.text JsonParse.nonObject)
        = LoopResult.raised
    ∧ handle_audio_step exServerClient
        (InboundFrame.text (JsonParse.object ⟨some "ping", none⟩))
        = LoopResult.next exServerClient true
    ∧ handle_audio_step exServerClient InboundFrame.other
        = LoopResult.next exServerClient true :=
  ⟨(claim_C8 exServerClient ⟨some "ping", none⟩).1,
   (claim_C8 exServerClient ⟨some "ping", none⟩).2.1,
   (claim_C8 exServerClient ⟨some "ping", none⟩).2.2.1 (by simp),
   (claim_C8 exServerClient ⟨some "ping", none⟩).2.2.2⟩

end Awaaz
